import Mathlib

/-!
Shallow embedding, in Lean 4, of the form/DAO/service layer of the
ClassScheduler repository.  Python dictionaries are association lists of
string keys to dynamic values, Python exceptions are modelled with
`Except`, and database tables are lists of typed rows.  All definitions
are translated directly from the Python source files
(`app/forms/base_form.py`, `app/forms/teacher_form.py`,
`app/data/base_dao.py`, `app/service/srv_teacher.py`,
`app/service/srv_training_session.py`, `app/utils/utils.py`,
`classic_link/daos/customer_dao.py`).
-/

/-- Dynamic Python value: the subset of Python values that flows through
the form/DAO layer (None, bool, int, str, list, dict). -/
inductive PyVal where
  | none
  | bool (b : Bool)
  | int (n : Int)
  | str (s : String)
  | list (xs : List PyVal)
  | dict (xs : List (String × PyVal))
deriving Repr

/-- A Python dict is modelled as an association list with unique keys
(first binding wins on lookup). -/
abbrev Dict := List (String × PyVal)

/-- Lookup in a dict: Python `d[k]` / `d.get(k)` without default. -/
def dictGet (d : Dict) (k : String) : Option PyVal :=
  match d with
  | [] => Option.none
  | (k2, v) :: rest => if k2 = k then Option.some v else dictGet rest k

/-- Python `k in d` membership test. -/
def dictHas (d : Dict) (k : String) : Bool :=
  (dictGet d k).isSome

/-- Python `d.get(k)` with default `None`. -/
def pyDictGet (d : Dict) (k : String) : PyVal :=
  (dictGet d k).getD PyVal.none

/-- Python `d[k] = v`: replace the binding if the key exists, else append. -/
def dictSet (d : Dict) (k : String) (v : PyVal) : Dict :=
  match d with
  | [] => [(k, v)]
  | (k2, w) :: rest => if k2 = k then (k2, v) :: rest else (k2, w) :: dictSet rest k v

/-- Python whitespace characters stripped by `str.strip()` (ASCII range). -/
def pyIsSpace (c : Char) : Bool :=
  c = ' ' || c = '\t' || c = '\n' || c = '\x0d' || c = '\x0b' || c = '\x0c'

/-- Python `s.strip()`: drop leading and trailing whitespace. -/
def pyStrip (s : String) : String :=
  String.mk (((s.toList.dropWhile pyIsSpace).reverse.dropWhile pyIsSpace).reverse)

/-- Python truthiness (`bool(v)`) for the modelled values. -/
def pyTruthy : PyVal → Bool
  | PyVal.none => false
  | PyVal.bool b => b
  | PyVal.int n => n != 0
  | PyVal.str s => s ≠ ""
  | PyVal.list xs => !xs.isEmpty
  | PyVal.dict xs => !xs.isEmpty

/-- Python `a or b`: the first operand when truthy, otherwise the second. -/
def pyOr (a b : PyVal) : PyVal :=
  if pyTruthy a then a else b

/-- Python `value is None or value == ""` (equality with `""` holds only
for the empty string itself). -/
def isNoneOrEmptyStr : PyVal → Bool
  | PyVal.none => true
  | PyVal.str s => s = ""
  | _ => false

/-- Python `v is None`. -/
def isNone : PyVal → Bool
  | PyVal.none => true
  | _ => false

/-- Python `c in s` for a single-character needle: membership of the
character in the string. -/
def pyInStr (c : Char) (s : String) : Bool :=
  s.toList.contains c

mutual

/-- Python `repr(v)` (as used when stringifying list/dict elements).
String quoting is modelled with plain single quotes. -/
def pyRepr : PyVal → String
  | PyVal.none => "None"
  | PyVal.bool true => "True"
  | PyVal.bool false => "False"
  | PyVal.int n => toString n
  | PyVal.str s => "\x27" ++ s ++ "\x27"
  | PyVal.list xs => "[" ++ String.intercalate (", ") (pyReprList xs) ++ "]"
  | PyVal.dict xs => "\x7b" ++ String.intercalate (", ") (pyReprDict xs) ++ "\x7d"

/-- `repr` mapped over a list of values. -/
def pyReprList : List PyVal → List String
  | [] => []
  | v :: rest => pyRepr v :: pyReprList rest

/-- `repr` mapped over dict entries, `'k': v` style. -/
def pyReprDict : List (String × PyVal) → List String
  | [] => []
  | (k, v) :: rest => ("\x27" ++ k ++ "\x27: " ++ pyRepr v) :: pyReprDict rest

end

/-- Python `str(v)` for the modelled values. -/
def pyStr : PyVal → String
  | PyVal.none => "None"
  | PyVal.bool true => "True"
  | PyVal.bool false => "False"
  | PyVal.int n => toString n
  | PyVal.str s => s
  | PyVal.list xs => pyRepr (PyVal.list xs)
  | PyVal.dict xs => pyRepr (PyVal.dict xs)

/-- Parse the digit part of a decimal literal. Returns the accumulated
natural number provided the character list is nonempty and all digits. -/
def parseDigits : List Char → Option Nat
  | [] => Option.none
  | cs => parseDigitsAux cs 0
where
  parseDigitsAux : List Char → Nat → Option Nat
    | [], acc => Option.some acc
    | c :: rest, acc =>
        if c.isDigit then parseDigitsAux rest (acc * 10 + (c.toNat - 48))
        else Option.none

/-- Python `int(v)`: succeeds on ints, bools, and strings that (after
stripping whitespace) are an optional sign followed by decimal digits;
`None`, lists and dicts raise (modelled as `Option.none`). -/
def pyInt : PyVal → Option Int
  | PyVal.int n => Option.some n
  | PyVal.bool b => Option.some (if b then 1 else 0)
  | PyVal.str s =>
      let cs := (pyStrip s).toList
      match cs with
      | '-' :: rest => (parseDigits rest).map (fun n => -(n : Int))
      | '+' :: rest => (parseDigits rest).map (fun n => (n : Int))
      | _ => (parseDigits cs).map (fun n => (n : Int))
  | _ => Option.none

/-! ## `app/utils/utils.py` -/

/-- `format_phone_for_display(digits)` from `app/utils/utils.py`:
keep only the digit characters of `str(digits or '')`, then format
10 digits as `(AAA) BBB-CCCC`, 7 digits as `AAA-BBBB`, and return the
bare digit string otherwise. -/
def format_phone_for_display (digits : PyVal) : String :=
  let s := String.mk ((pyStr (pyOr digits (PyVal.str ("")))).toList.filter Char.isDigit)
  if s.length = 10 then
    "(" ++ (s.take 3) ++ ") " ++ ((s.drop 3).take 3) ++ "-" ++ (s.drop 6)
  else if s.length = 7 then
    (s.take 3) ++ "-" ++ (s.drop 3)
  else s

/-- Claim C9 as stated: drop every non-digit character of the
stringified input, *the empty string when the input is `None`*, then
dispatch on the digit count. -/
def formatPhoneClaim (digits : PyVal) : String :=
  let s := String.mk ((if isNone digits then ("") else pyStr digits).toList.filter Char.isDigit)
  if s.length = 10 then
    "(" ++ (s.take 3) ++ ") " ++ ((s.drop 3).take 3) ++ "-" ++ (s.drop 6)
  else if s.length = 7 then
    (s.take 3) ++ "-" ++ (s.drop 3)
  else s

/-- Claim C9 amended: the stringified input is the empty string whenever
the input is *falsy* (None, False, 0, empty string or container), not
only when it is `None`. -/
def formatPhoneSpec (digits : PyVal) : String :=
  let s := String.mk ((if pyTruthy digits then pyStr digits else ("")).toList.filter Char.isDigit)
  if s.length = 10 then
    "(" ++ (s.take 3) ++ ") " ++ ((s.drop 3).take 3) ++ "-" ++ (s.drop 6)
  else if s.length = 7 then
    (s.take 3) ++ "-" ++ (s.drop 3)
  else s

/-! ## `BaseDAO.safe_execute` and `BaseDAO.validate_string_field`
(`app/data/base_dao.py`) -/

/-- Python exceptions that the DAO layer distinguishes. -/
inductive PyExc where
  | doesNotExist
  | integrityError (msg : String)
  | valueError (msg : String)
  | attributeError (msg : String)
  | otherError (msg : String)
deriving Repr, DecidableEq

/-- `BaseDAO.safe_execute` from `app/data/base_dao.py`: run the wrapped
callable (its outcome is the argument), return `default_return` on
`DoesNotExist`, re-raise `IntegrityError` when `reraise_integrity` is
set (else return `default_return`), and return `default_return` on any
other exception. -/
def safe_execute (queryResult : Except PyExc PyVal) (default_return : PyVal)
    (reraise_integrity : Bool) : Except PyExc PyVal :=
  match queryResult with
  | Except.ok v => Except.ok v
  | Except.error PyExc.doesNotExist => Except.ok default_return
  | Except.error (PyExc.integrityError m) =>
      if reraise_integrity then Except.error (PyExc.integrityError m)
      else Except.ok default_return
  | Except.error _ => Except.ok default_return

/-- `BaseDAO.validate_string_field` from `app/data/base_dao.py`.
`max_length` is the optional keyword argument (`Option Int`, with the
Python truthiness test `if max_length` on it). Returns `Except` for the
`ValueError` raises; the successful result is `PyVal.none` (empty and
not required) or the normalized string. -/
def validate_string_field (value : PyVal) (field_name : String)
    (max_length : Option Int) (required : Bool) : Except PyExc PyVal :=
  if isNoneOrEmptyStr value then
    if required then Except.error (PyExc.valueError (field_name ++ (" is required")))
    else Except.ok PyVal.none
  else
    let normalized := pyStrip (pyStr value)
    if required ∧ normalized = "" then
      Except.error (PyExc.valueError (field_name ++ (" cannot be empty")))
    else if (match max_length with
             | Option.some m => m != 0 && (normalized.length : Int) > m
             | Option.none => false) then
      Except.error (PyExc.valueError (field_name ++ (" cannot exceed ") ++ toString (max_length.getD 0) ++ (" characters")))
    else
      Except.ok (PyVal.str normalized)


/-! ## The form layer (`app/forms/base_form.py`, `app/forms/teacher_form.py`) -/

/-- One entry of `BaseForm._errors`: `{'field': ..., 'message': ...}`. -/
structure FormError where
  field : String
  message : String
deriving Repr, DecidableEq

/-- The mutable state of a `BaseForm` instance.  `data` is the incoming
dict (`data or {}`), `inst` models the optional bound model instance as
an attribute map, `isPartial` is the `partial` flag, and `isBound`
records `(data is not None) or (instance is not None)` from `__init__`. -/
structure FormState where
  data : Dict
  inst : Option Dict
  isPartial : Bool
  cleaned_data : Dict
  errors : List FormError
  isBound : Bool
deriving Repr

/-- `BaseForm.__init__`: store the arguments, start with empty
`cleaned_data` and `_errors`, and record boundness. -/
def formInit (data : Option Dict) (inst : Option Dict) (isPartial : Bool) : FormState :=
  { data := data.getD [], inst := inst, isPartial := isPartial,
    cleaned_data := [], errors := [], isBound := data.isSome || inst.isSome }

/-- A subclass `clean()` body: reads `(data, instance, partial)` and
produces the errors it adds and the `cleaned_data` it fills. -/
abbrev CleanFn := Dict → Option Dict → Bool → List FormError × Dict

/-- The non-field error added by `is_valid` on an unbound form. -/
def notBoundError : FormError :=
  ⟨("__all__"), ("Form is not bound (no data/instance).")⟩

/-- `BaseForm.is_valid`: clear `_errors` and `cleaned_data`, fail when
unbound, otherwise run `clean()` and return `not self._errors` together
with the updated form state. -/
def is_valid (clean : CleanFn) (f : FormState) : Bool × FormState :=
  let f0 := { f with errors := [], cleaned_data := [] }
  if !f0.isBound then
    (false, { f0 with errors := [notBoundError] })
  else
    let r := clean f0.data f0.inst f0.isPartial
    (r.1.isEmpty, { f0 with errors := r.1, cleaned_data := r.2 })

/-- Python `val is None or (isinstance(val, str) and val.strip() == "")`,
the emptiness test used by `BaseForm.require`. -/
def isNoneOrBlankStr : PyVal → Bool
  | PyVal.none => true
  | PyVal.str s => pyStrip s = ""
  | _ => false

/-- `BaseForm.require`: under `partial`, an absent field yields `None`
with no error; otherwise fetch the value and add a required-field error
when it is `None` or a blank string.  Returns the value and the error
list the call appends. -/
def requireField (data : Dict) (isPartial : Bool) (field : String) : PyVal × List FormError :=
  if isPartial && !(dictHas data field) then (PyVal.none, [])
  else
    let val := pyDictGet data field
    if isNoneOrBlankStr val then (val, [⟨field, ("This field is required.")⟩])
    else (val, [])

/-- The `teacher_id` passthrough block of `TeacherForm.clean`: when the
value is not `None`, store `int(teacher_id)` (or `None` when it
stringifies to blank), adding an error when `int()` raises. -/
def teacherIdBlock (teacher_id : PyVal) : List FormError × Dict :=
  if !(isNone teacher_id) then
    if pyStrip (pyStr teacher_id) ≠ "" then
      match pyInt teacher_id with
      | Option.some n => ([], [(("teacher_id"), PyVal.int n)])
      | Option.none => ([⟨("teacher_id"), ("Invalid teacher id")⟩], [])
    else ([], [(("teacher_id"), PyVal.none)])
  else ([], [])

/-- The first/last-name block of `TeacherForm.clean`: when the value is
present or the form is not partial, normalise `str(v or "").strip()` and
either record a length error (over 45 characters) or store the value. -/
def nameBlock (field : String) (valIn : PyVal) (isPartial : Bool) (label : String) : List FormError × Dict :=
  if !(isNone valIn) || !isPartial then
    let v := pyStrip (pyStr (pyOr valIn (PyVal.str (""))))
    if v.length > 45 then ([⟨field, label ++ (" cannot exceed 45 characters")⟩], [])
    else ([], [(field, PyVal.str v)])
  else ([], [])

/-- The email block of `TeacherForm.clean`: `None`/blank stores `None`,
a string without `@` records an error, otherwise the stripped string is
stored. -/
def emailBlock (email_in : PyVal) : List FormError × Dict :=
  if isNone email_in then ([], [(("email"), PyVal.none)])
  else
    let em := pyStrip (pyStr email_in)
    if em = "" then ([], [(("email"), PyVal.none)])
    else if pyInStr '@' em then ([], [(("email"), PyVal.str em)])
    else ([⟨("email"), ("Invalid email address")⟩], [])

/-- `TeacherForm.clean` from `app/forms/teacher_form.py`: the blocks run
in source order (require first/last name, then the teacher_id, name and
email blocks) and `cleaned_data.update(cleaned)` on the cleared dict is
the concatenation of the blocks' entries. -/
def teacherClean : CleanFn := fun data _inst isPartial =>
  let teacher_id := pyDictGet data ("teacher_id")
  let fnR := requireField data isPartial ("first_name")
  let lnR := requireField data isPartial ("last_name")
  let email_in := pyDictGet data ("email")
  let tid := teacherIdBlock teacher_id
  let fnB := nameBlock ("first_name") fnR.1 isPartial ("First name")
  let lnB := nameBlock ("last_name") lnR.1 isPartial ("Last name")
  let emB := emailBlock email_in
  (fnR.2 ++ lnR.2 ++ tid.1 ++ fnB.1 ++ lnB.1 ++ emB.1,
   tid.2 ++ fnB.2 ++ lnB.2 ++ emB.2)

/-- The `Meta` configuration a form subclass provides. -/
structure MetaCfg where
  create_fn : String
  update_fn : String
  pk_field : String

/-- A DAO as seen by `BaseForm.save`: a method table; `getattr(dao,
name, None)` yields `none` when the attribute is missing or not
callable; a present method consumes the keyword arguments. -/
abbrev Dao := String → Option (Dict → PyVal)

/-- Observable side effects of `BaseForm.save`: constructing the DAO
(`_get_dao`) and invoking a DAO method with keyword arguments. -/
inductive Effect where
  | daoConstructed
  | daoCall (method : String) (kwargs : Dict)
deriving Repr

/-- Outcome of a call that may raise: a returned Python value or an
exception. -/
inductive SaveRes where
  | ret (v : PyVal)
  | exc (e : PyExc)
deriving Repr

/-- `BaseForm._pk_value`: the `Meta.pk_field` attribute of the bound
instance when the instance exists and has the attribute, else
`data.get(pk_field)`. -/
def pkValue (f : FormState) (pk : String) : PyVal :=
  match f.inst with
  | Option.some attrs =>
      match dictGet attrs pk with
      | Option.some v => v
      | Option.none => pyDictGet f.data pk
  | Option.none => pyDictGet f.data pk

/-- The `errors` property: the error list as Python dicts. -/
def errorsToPy (es : List FormError) : PyVal :=
  PyVal.list (es.map fun e =>
    PyVal.dict [(("field"), PyVal.str e.field), (("message"), PyVal.str e.message)])

/-- The `{"ok": False, "errors": ...}` result dict. -/
def failDict (es : List FormError) : PyVal :=
  PyVal.dict [(("ok"), PyVal.bool false), (("errors"), errorsToPy es)]

/-- The `{"ok": True, "result": ...}` result dict. -/
def okDict (r : PyVal) : PyVal :=
  PyVal.dict [(("ok"), PyVal.bool true), (("result"), r)]

/-- `BaseForm.save` from `app/forms/base_form.py`: return the error
dict when `_errors` is nonempty (without touching the DAO); otherwise
construct the DAO, pick `update_fn` when `_pk_value()` is truthy and
`create_fn` otherwise, raise `AttributeError` when the method is
missing, and otherwise call it with `cleaned_data` as keyword
arguments.  The first component records the side effects in order. -/
def save (f : FormState) (meta : MetaCfg) (dao : Dao) : List Effect × SaveRes :=
  if !f.errors.isEmpty then
    ([], SaveRes.ret (failDict f.errors))
  else
    let method_name := if pyTruthy (pkValue f meta.pk_field) then meta.update_fn else meta.create_fn
    match dao method_name with
    | Option.none =>
        ([Effect.daoConstructed],
         SaveRes.exc (PyExc.attributeError (("DAO missing method ") ++ method_name)))
    | Option.some m =>
        ([Effect.daoConstructed, Effect.daoCall method_name f.cleaned_data],
         SaveRes.ret (okDict (m f.cleaned_data)))

/-- `TeacherForm.Meta`: `create_fn = "create"`, `update_fn = "update"`,
`pk_field = "teacher_id"`. -/
def teacherMeta : MetaCfg := ⟨("create"), ("update"), ("teacher_id")⟩

/-- The shared body of the two save services: build the form from the
data dict, return the error dict when `is_valid()` fails, otherwise
return `form.save()`. -/
def saveService (clean : CleanFn) (meta : MetaCfg) (dao : Dao) (data : Dict) : List Effect × SaveRes :=
  if !(is_valid clean (formInit (Option.some data) Option.none false)).1 then
    ([], SaveRes.ret (failDict (is_valid clean (formInit (Option.some data) Option.none false)).2.errors))
  else save (is_valid clean (formInit (Option.some data) Option.none false)).2 meta dao

/-- `save_teacher` from `app/service/srv_teacher.py`. -/
def save_teacher (dao : Dao) (data : Dict) : List Effect × SaveRes :=
  saveService teacherClean teacherMeta dao data

/-- Modelled from the spec: `TrainingSessionForm.clean`
(`app/forms/training_session_form.py` is not among the provided
sources).  Per the spec's form contract and the `save_training_session`
docstring, the form validates the keys `name`, `teacher`,
`session_date`, `session_time` and `price` as required inputs and fills
`cleaned_data` with them. -/
def trainingSessionClean : CleanFn := fun data _inst isPartial =>
  let ks : List String := [("name"), ("teacher"), ("session_date"), ("session_time"), ("price")]
  let rs := ks.map (fun k => (k, requireField data isPartial k))
  ((rs.map (fun p => p.2.2)).flatten, rs.map (fun p => (p.1, p.2.1)))

/-- Modelled from the spec: `TrainingSessionForm.Meta`; the
`save_training_session` docstring names `session_id` as the optional
primary key for updates. -/
def trainingSessionMeta : MetaCfg := ⟨("create"), ("update"), ("session_id")⟩

/-- `save_training_session` from `app/service/srv_training_session.py`:
same service shape as `save_teacher`, over the training-session form. -/
def save_training_session (dao : Dao) (data : Dict) : List Effect × SaveRes :=
  saveService trainingSessionClean trainingSessionMeta dao data

/-! ## `delete_training_session` (`app/service/srv_training_session.py`)
over the scheduler schema -/

/-- Modelled from the spec: the `SessionAttendee` row of the scheduler
schema (`app/data/model.py` is not among the provided sources; the
spec's data model lists `SessionAttendee` with a foreign key `session`
referencing `TrainingSession`). -/
structure SessionAttendeeRow where
  attendee_id : Int
  session : Int
deriving Repr, DecidableEq

/-- Modelled from the spec: the `TrainingSession` row of the scheduler
schema (primary key `session_id`, per `TrainingSessionDAO`). -/
structure TrainingSessionRow where
  session_id : Int
  name : String
deriving Repr, DecidableEq

/-- The scheduler database tables that `delete_training_session`
touches. -/
structure AppDb where
  attendees : List SessionAttendeeRow
  sessions : List TrainingSessionRow
deriving Repr, DecidableEq

/-- `BaseDAO.delete_where` from `app/data/base_dao.py`: delete the rows
matching the where-clause and return how many were deleted. -/
def delete_where {α : Type} (rows : List α) (p : α → Bool) : List α × Int :=
  (rows.filter (fun r => !(p r)), ((rows.filter p).length : Int))

/-- `delete_training_session` from `app/service/srv_training_session.py`:
first delete every `SessionAttendee` whose `session` equals the id, then
delete the `TrainingSession` row, and return
`{"ok": bool(n and n > 0), "deleted": n or 0}`. -/
def delete_training_session (session_id : Int) (db : AppDb) : AppDb × PyVal :=
  let ra := delete_where db.attendees (fun a => a.session == session_id)
  let db1 : AppDb := { db with attendees := ra.1 }
  let rs := delete_where db1.sessions (fun s => s.session_id == session_id)
  let db2 : AppDb := { db1 with sessions := rs.1 }
  let n := rs.2
  (db2, PyVal.dict [(("ok"), PyVal.bool (!(n == 0) && decide (0 < n))),
                    (("deleted"), PyVal.int (if !(n == 0) then n else 0))])

/-! ## `CustomerDAO` (`classic_link/daos/customer_dao.py`) over the
accounting schema (`classic_link/models/ca_model.py`) -/

/-- A row of the `org` table (the fields `CustomerDAO` reads). -/
structure OrgRow where
  org_id : Int
  orgdiscriminator : String
  active : Bool
  orgname : Option String
  org_name_extension : Option String
  acctnumber : Option String
  firstname : Option String
  lastname : Option String
  phone1 : Option String
  phone2 : Option String
  fax1 : Option String
  email : Option String
  balance : PyVal
  creditlimit : PyVal
  taxable : Bool
  notes : Option String
  pricelevelid : Option Int
  termsid : Option Int
  default_ship_via_org : Option Int
  def_sales_rep : Option Int
deriving Repr

/-- A row of the `org_address` table. -/
structure OrgAddressRow where
  gen_addr_id : Int
  active : Bool
  addresstype : String
  addrname : Option String
  is_default : Bool
  orgid : Option Int
  streetone : Option String
  streettwo : Option String
  txtcity : Option String
  txtstate : Option String
  txtzip : Option String
  txtcountry : Option String
deriving Repr

/-- A row of the `org_item_link` table. -/
structure OrgItemLinkRow where
  orgid : Int
  itemid : Int
  linktype : String
  exempt : Bool
deriving Repr, DecidableEq

/-- A row of `itm_items` (the fields the tax queries read). -/
structure ItmItemsRow where
  itemid : Int
  itemtypecode : String
  active : Bool
deriving Repr, DecidableEq

/-- A row of one of the four preference reference tables
(`itm_pricelevels`, `acct_terms`, `acct_via_method`, `acct_sales_rep`):
a primary key and an `active` flag. -/
structure RefRow where
  id : Int
  active : Bool
deriving Repr, DecidableEq

/-- The accounting database state: the tables `CustomerDAO` queries. -/
structure AcctDb where
  org : List OrgRow
  org_address : List OrgAddressRow
  org_item_link : List OrgItemLinkRow
  itm_items : List ItmItemsRow
  itm_price_levels : List RefRow
  acct_terms : List RefRow
  acct_via_method : List RefRow
  acct_sales_rep : List RefRow
deriving Repr

/-- A SQL statement issued against the accounting database, abstracted
to its kind and target table. -/
inductive SqlStmt where
  | select (table : String)
  | insert (table : String)
  | update (table : String)
  | delete (table : String)
deriving Repr, DecidableEq

/-- Whether a statement is a SELECT. -/
def SqlStmt.isSelect : SqlStmt → Bool
  | SqlStmt.select _ => true
  | _ => false

/-- Result of one `CustomerDAO` call: the database state after the call,
the statements the call issued, and the Python return value. -/
structure AcctDaoResult where
  db : AcctDb
  stmts : List SqlStmt
  value : PyVal

/-- `Option String` lifted to a Python value. -/
def optStr : Option String → PyVal
  | Option.some s => PyVal.str s
  | Option.none => PyVal.none

/-- `Option Int` lifted to a Python value. -/
def optInt : Option Int → PyVal
  | Option.some n => PyVal.int n
  | Option.none => PyVal.none

/-- Substring containment (SQL `LIKE '%pat%'` on a non-null string,
wildcards in the search term not modelled). -/
def strContains (s pat : String) : Bool :=
  if pat = "" then true else (s.splitOn pat).length > 1

/-- `LOWER(col) LIKE '%pat%'` on a nullable column: NULL never
matches. -/
def likeMatch (o : Option String) (pat : String) : Bool :=
  match o with
  | Option.some s => strContains s.toLower pat
  | Option.none => false

/-- Ascending SQL ordering on a nullable text column, nulls last. -/
def optStrLe (a b : Option String) : Bool :=
  match a, b with
  | Option.none, Option.none => true
  | Option.none, Option.some _ => false
  | Option.some _, Option.none => true
  | Option.some x, Option.some y => decide (x ≤ y)

/-- Insert into a list sorted by `le`. -/
def insertSorted {α : Type} (le : α → α → Bool) (x : α) : List α → List α
  | [] => [x]
  | y :: rest => if le x y then x :: y :: rest else y :: insertSorted le x rest

/-- Insertion sort by `le` (models SQL ORDER BY; relative order of equal
keys is unspecified by SQL). -/
def sortBy {α : Type} (le : α → α → Bool) : List α → List α
  | [] => []
  | x :: rest => insertSorted le x (sortBy le rest)

/-- `CustomerDAO._to_dict`. -/
def orgToDict (o : OrgRow) : PyVal :=
  PyVal.dict [
    (("org_id"), PyVal.int o.org_id),
    (("orgname"), optStr o.orgname),
    (("org_name_extension"), optStr o.org_name_extension),
    (("acctnumber"), optStr o.acctnumber),
    (("active"), PyVal.bool o.active),
    (("balance"), o.balance),
    (("email"), optStr o.email),
    (("phone1"), optStr o.phone1),
    (("phone2"), optStr o.phone2),
    (("fax1"), optStr o.fax1),
    (("firstname"), optStr o.firstname),
    (("lastname"), optStr o.lastname),
    (("creditlimit"), o.creditlimit),
    (("taxable"), PyVal.bool o.taxable),
    (("notes"), optStr o.notes)]

/-- One output row of the `search_customers` raw SQL: display name per
the CASE expression, billing address per `CONCAT_WS` over the `NULLIF`
parts of the left-joined BILLTO address. -/
def searchRow (o : OrgRow) (addr : Option OrgAddressRow) : PyVal :=
  let nm := (o.orgname.getD ("")) ++ (o.org_name_extension.getD (""))
  let display_name := if nm ≠ "" then nm else ("customer - ") ++ toString o.org_id
  let bill_address :=
    match addr with
    | Option.none => ""
    | Option.some a =>
        String.intercalate (", ")
          ([a.streetone, a.txtcity, a.txtstate, a.txtzip].filterMap (fun x =>
            match x with
            | Option.some s => if s = "" then Option.none else Option.some s
            | Option.none => Option.none))
  PyVal.dict [
    (("org_id"), PyVal.int o.org_id),
    (("display_name"), PyVal.str display_name),
    (("company_name"), PyVal.str (o.orgname.getD (""))),
    (("bill_address"), PyVal.str bill_address),
    (("phone"), PyVal.str (o.phone1.getD (""))),
    (("active"), PyVal.bool o.active)]

/-- `CustomerDAO.search_customers`: one raw SELECT over `org` left
joined with the BILLTO `org_address`, filtered to customers (optionally
active only, optionally term-matched on name/phone/email), ordered by
`orgname` and limited. -/
def search_customers (db : AcctDb) (term : String) (limit : Nat)
    (include_inactive : Bool) : AcctDaoResult :=
  let term_clean := pyStrip term
  let tl := term_clean.toLower
  let base := db.org.filter (fun o =>
    o.orgdiscriminator == ("CUST") &&
    (include_inactive || o.active) &&
    (term_clean == "" ||
      (likeMatch o.orgname tl || likeMatch o.firstname tl || likeMatch o.lastname tl ||
       likeMatch o.phone1 tl || likeMatch o.email tl)))
  let joined := (base.map (fun o =>
    match db.org_address.filter (fun a =>
        (a.orgid == Option.some o.org_id) && (a.addresstype == ("BILLTO"))) with
    | [] => [(o, (Option.none : Option OrgAddressRow))]
    | xs => xs.map (fun a => (o, Option.some a)))).flatten
  let sorted := sortBy (fun p q => optStrLe p.1.orgname q.1.orgname) joined
  { db := db, stmts := [SqlStmt.select ("org")],
    value := PyVal.list ((sorted.take limit).map (fun p => searchRow p.1 p.2)) }

/-- `CustomerDAO.get_by_id`: `Org.get` filtered to customers, converted
with `_to_dict`; `None` when not found. -/
def customer_get_by_id (db : AcctDb) (org_id : Int) : AcctDaoResult :=
  match (db.org.filter (fun o => (o.org_id == org_id) && (o.orgdiscriminator == ("CUST")))).head? with
  | Option.some o => { db := db, stmts := [SqlStmt.select ("org")], value := orgToDict o }
  | Option.none => { db := db, stmts := [SqlStmt.select ("org")], value := PyVal.none }

/-- `CustomerDAO.get_by_account_number`. -/
def get_by_account_number (db : AcctDb) (account_number : String) : AcctDaoResult :=
  match (db.org.filter (fun o =>
      (o.acctnumber == Option.some account_number) && (o.orgdiscriminator == ("CUST")))).head? with
  | Option.some o => { db := db, stmts := [SqlStmt.select ("org")], value := orgToDict o }
  | Option.none => { db := db, stmts := [SqlStmt.select ("org")], value := PyVal.none }

/-- `CustomerDAO.get_active_count`: count of active customers. -/
def get_active_count (db : AcctDb) : AcctDaoResult :=
  { db := db, stmts := [SqlStmt.select ("org")],
    value := PyVal.int ((db.org.filter (fun o =>
      (o.orgdiscriminator == ("CUST")) && o.active)).length) }

/-- `CustomerDAO.is_active`: the customer's `active` flag, `False` when
not found. -/
def customer_is_active (db : AcctDb) (org_id : Int) : AcctDaoResult :=
  match (db.org.filter (fun o => (o.org_id == org_id) && (o.orgdiscriminator == ("CUST")))).head? with
  | Option.some o => { db := db, stmts := [SqlStmt.select ("org")], value := PyVal.bool o.active }
  | Option.none => { db := db, stmts := [SqlStmt.select ("org")], value := PyVal.bool false }

/-- `CustomerDAO._is_active` on a reference table: no query when the
foreign key is `None`; otherwise a `get_or_none` SELECT, with the
`active` flag of the found row (`False` when no row). -/
def refIsActive (tbl : List RefRow) (pk : Option Int) (table : String) : Bool × List SqlStmt :=
  match pk with
  | Option.none => (false, [])
  | Option.some p =>
      match (tbl.filter (fun r => r.id == p)).head? with
      | Option.some row => (row.active, [SqlStmt.select table])
      | Option.none => (false, [SqlStmt.select table])

/-- `CustomerDAO.get_preference_ids`: fetch the org, then validate each
preference foreign key against its reference table, returning `None`
for inactive or dangling references; the four-`None` default dict when
the org does not exist. -/
def get_preference_ids (db : AcctDb) (customer_id : Int) : AcctDaoResult :=
  match (db.org.filter (fun o => o.org_id == customer_id)).head? with
  | Option.none =>
      { db := db, stmts := [SqlStmt.select ("org")],
        value := PyVal.dict [(("price_level_id"), PyVal.none), (("terms_id"), PyVal.none),
                             (("ship_method_id"), PyVal.none), (("sales_rep_id"), PyVal.none)] }
  | Option.some o =>
      let pl := refIsActive db.itm_price_levels o.pricelevelid ("itm_pricelevels")
      let tm := refIsActive db.acct_terms o.termsid ("acct_terms")
      let via := refIsActive db.acct_via_method o.default_ship_via_org ("acct_via_method")
      let rep := refIsActive db.acct_sales_rep o.def_sales_rep ("acct_sales_rep")
      { db := db,
        stmts := [SqlStmt.select ("org")] ++ pl.2 ++ tm.2 ++ via.2 ++ rep.2,
        value := PyVal.dict [
          (("price_level_id"), if pl.1 then optInt o.pricelevelid else PyVal.none),
          (("terms_id"), if tm.1 then optInt o.termsid else PyVal.none),
          (("ship_method_id"), if via.1 then optInt o.default_ship_via_org else PyVal.none),
          (("sales_rep_id"), if rep.1 then optInt o.def_sales_rep else PyVal.none)] }

/-- `CustomerDAO.get_tax_item_ids`: SALESTAX item ids linked to the
customer through `org_item_link`, optionally filtered by link type. -/
def get_tax_item_ids (db : AcctDb) (org_id : Int) (linktype : Option String) : AcctDaoResult :=
  let rows := db.org_item_link.filter (fun l =>
    (db.itm_items.any (fun i => (i.itemid == l.itemid) && (i.itemtypecode == ("SALESTAX")))) &&
    (l.orgid == org_id) &&
    (match linktype with | Option.none => true | Option.some lt => l.linktype == lt))
  { db := db, stmts := [SqlStmt.select ("org_item_link")],
    value := PyVal.list (rows.map (fun l => PyVal.int l.itemid)) }

/-- `CustomerDAO.is_tax_exempt`: the `exempt` flag of the customer/item
link, `False` when there is no link. -/
def is_tax_exempt (db : AcctDb) (org_id : Int) (tax_item_id : Int) : AcctDaoResult :=
  match (db.org_item_link.filter (fun l =>
      (l.orgid == org_id) && (l.itemid == tax_item_id))).head? with
  | Option.some l => { db := db, stmts := [SqlStmt.select ("org_item_link")], value := PyVal.bool l.exempt }
  | Option.none => { db := db, stmts := [SqlStmt.select ("org_item_link")], value := PyVal.bool false }

/-- `CustomerDAO.get_bill_address`: the first BILLTO address of the
customer as a dict, `None` when there is none. -/
def get_bill_address (db : AcctDb) (org_id : Int) : AcctDaoResult :=
  match (db.org_address.filter (fun a =>
      (a.orgid == Option.some org_id) && (a.addresstype == ("BILLTO")))).head? with
  | Option.some a =>
      { db := db, stmts := [SqlStmt.select ("org_address")],
        value := PyVal.dict [
          (("gen_addr_id"), PyVal.int a.gen_addr_id),
          (("street_one"), optStr a.streetone),
          (("street_two"), optStr a.streettwo),
          (("city"), optStr a.txtcity),
          (("state"), optStr a.txtstate),
          (("zip"), optStr a.txtzip),
          (("country"), optStr a.txtcountry)] }
  | Option.none => { db := db, stmts := [SqlStmt.select ("org_address")], value := PyVal.none }

/-- `CustomerDAO.get_ship_addresses`: the active SHIPTO addresses of the
customer as dicts. -/
def get_ship_addresses (db : AcctDb) (org_id : Int) : AcctDaoResult :=
  let rows := db.org_address.filter (fun a =>
    (a.orgid == Option.some org_id) && (a.addresstype == ("SHIPTO")) && a.active)
  { db := db, stmts := [SqlStmt.select ("org_address")],
    value := PyVal.list (rows.map (fun a => PyVal.dict [
      (("gen_addr_id"), PyVal.int a.gen_addr_id),
      (("addr_name"), optStr a.addrname),
      (("street_one"), optStr a.streetone),
      (("street_two"), optStr a.streettwo),
      (("city"), optStr a.txtcity),
      (("state"), optStr a.txtstate),
      (("zip"), optStr a.txtzip),
      (("is_default"), PyVal.bool a.is_default)]))}

/-! ## Claim-side specification definitions -/

/-- Claim C7 as stated: the max-length check fires whenever `max_length`
is *set* (not `None`), regardless of its value. -/
def validateStringClaim (value : PyVal) (field_name : String)
    (max_length : Option Int) (required : Bool) : Except PyExc PyVal :=
  if isNoneOrEmptyStr value then
    if required then Except.error (PyExc.valueError (field_name ++ (" is required")))
    else Except.ok PyVal.none
  else
    let normalized := pyStrip (pyStr value)
    if required ∧ normalized = "" then
      Except.error (PyExc.valueError (field_name ++ (" cannot be empty")))
    else if (match max_length with
             | Option.some m => decide ((normalized.length : Int) > m)
             | Option.none => false) then
      Except.error (PyExc.valueError (field_name ++ (" cannot exceed ") ++ toString (max_length.getD 0) ++ (" characters")))
    else
      Except.ok (PyVal.str normalized)

/-- Claim C7 amended: the max-length check fires only when `max_length`
is set *and truthy* (nonzero), matching the Python `if max_length`
guard. -/
def validateStringAmended (value : PyVal) (field_name : String)
    (max_length : Option Int) (required : Bool) : Except PyExc PyVal :=
  if isNoneOrEmptyStr value then
    if required then Except.error (PyExc.valueError (field_name ++ (" is required")))
    else Except.ok PyVal.none
  else
    let normalized := pyStrip (pyStr value)
    if required ∧ normalized = "" then
      Except.error (PyExc.valueError (field_name ++ (" cannot be empty")))
    else if (match max_length with
             | Option.some m => (m != 0) && decide ((normalized.length : Int) > m)
             | Option.none => false) then
      Except.error (PyExc.valueError (field_name ++ (" cannot exceed ") ++ toString (max_length.getD 0) ++ (" characters")))
    else
      Except.ok (PyVal.str normalized)

/-- An element of the `errors` list in the `{ok: False}` contract:
a dict with exactly the keys `field` and `message`, both strings. -/
def isErrorRecord : PyVal → Bool
  | PyVal.dict [("field", PyVal.str _), ("message", PyVal.str _)] => true
  | _ => false

/-- The failure shape of the service contract:
`{"ok": False, "errors": es}` with `es` a nonempty list of error
records. -/
def isFailShape : PyVal → Bool
  | PyVal.dict [("ok", PyVal.bool false), ("errors", PyVal.list es)] =>
      !es.isEmpty && es.all isErrorRecord
  | _ => false

/-- The success shape of the service contract:
`{"ok": True, "result": r}`. -/
def isOkShape : PyVal → Bool
  | PyVal.dict [("ok", PyVal.bool true), ("result", _)] => true
  | _ => false

/-- Claim C5's condition on a required name field: present (not `None`),
non-blank, and its normalisation `str(v or "").strip()` is at most 45
characters. -/
def requiredNameOk (data : Dict) (k : String) : Bool :=
  !(isNoneOrBlankStr (pyDictGet data k)) &&
  (pyStrip (pyStr (pyOr (pyDictGet data k) (PyVal.str (""))))).length ≤ 45

/-- Claim C5's condition on `teacher_id`: absent/None, blank, or parses
as an integer. -/
def teacherIdOk (data : Dict) : Bool :=
  let v := pyDictGet data ("teacher_id")
  isNone v || (pyStrip (pyStr v) == "") || (pyInt v).isSome

/-- Claim C5's condition on `email`: absent/None, blank, or contains
`@`. -/
def emailOk (data : Dict) : Bool :=
  let v := pyDictGet data ("email")
  isNone v || (pyStrip (pyStr v) == "") || (pyInStr '@' (pyStrip (pyStr v)))

/-- Claim C5's validity condition on a non-partial teacher form. -/
def teacherValidSpec (data : Dict) : Bool :=
  requiredNameOk data ("first_name") && requiredNameOk data ("last_name") &&
  teacherIdOk data && emailOk data

/-- Claim C5's blank-or-absent condition on `email` (the case in which
`cleaned_data["email"]` is `None`). -/
def emailBlank (data : Dict) : Bool :=
  let v := pyDictGet data ("email")
  isNone v || (pyStrip (pyStr v) == "")

/-- Claim C6's read-only property of one `CustomerDAO` call: the
database state is unchanged and every issued statement is a SELECT. -/
def readOnly (r : AcctDaoResult) (db : AcctDb) : Prop :=
  r.db = db ∧ r.stmts.all SqlStmt.isSelect = true

/-! ## Concrete fixtures used by counterexamples and witnesses -/

/-- A DAO exposing every method; each method returns `None`. -/
def daoW : Dao := fun _ => Option.some (fun _ => PyVal.none)

/-- The method body of `daoW`. -/
def gW : Dict → PyVal := fun _ => PyVal.none

/-- A bound form with no data and no errors. -/
def fW : FormState :=
  { data := [], inst := Option.none, isPartial := false,
    cleaned_data := [], errors := [], isBound := true }

/-- A form carrying one validation error. -/
def fErrW : FormState :=
  { fW with errors := [⟨("first_name"), ("This field is required.")⟩] }

/-- Claim C1's counterexample data: a present primary-key value `0`
together with valid names. -/
def dC1 : Dict :=
  [(("teacher_id"), PyVal.int 0),
   (("first_name"), PyVal.str ("Ann")),
   (("last_name"), PyVal.str ("Lee"))]

/-- The teacher form state after validating `dC1`. -/
def fC1 : FormState := (is_valid teacherClean (formInit (Option.some dC1) Option.none false)).2

/-- Valid teacher data for the C5 witness. -/
def dC5 : Dict :=
  [(("teacher_id"), PyVal.str ("7")),
   (("first_name"), PyVal.str (" Ann ")),
   (("last_name"), PyVal.str ("Lee")),
   (("email"), PyVal.str (" ann@x.io "))]

/-- The failure value `save_teacher` returns on the empty data dict
(used by the C2 witness). -/
def vC2 : PyVal :=
  failDict [⟨("first_name"), ("This field is required.")⟩,
            ⟨("last_name"), ("This field is required.")⟩]

/-- The success value `save_teacher` returns on valid data against the
all-methods DAO `daoW` (used by the C2 witness). -/
def vC2ok : PyVal :=
  okDict PyVal.none

/-! ## Theorems -/

/-- Claim C3: `safe_execute` returns `default_return` on `DoesNotExist`,
re-raises `IntegrityError` exactly when `reraise_integrity` is true
(returning `default_return` otherwise), returns `default_return` on
every other exception, and passes through the callable's result when
nothing is raised. -/
theorem C3_safe_execute_cases :
    ∀ (d : PyVal) (m : String) (v : PyVal) (r : Bool),
      safe_execute (Except.ok v) d r = Except.ok v ∧
      safe_execute (Except.error PyExc.doesNotExist) d r = Except.ok d ∧
      safe_execute (Except.error (PyExc.integrityError m)) d true = Except.error (PyExc.integrityError m) ∧
      safe_execute (Except.error (PyExc.integrityError m)) d false = Except.ok d ∧
      safe_execute (Except.error (PyExc.valueError m)) d r = Except.ok d ∧
      safe_execute (Except.error (PyExc.attributeError m)) d r = Except.ok d ∧
      safe_execute (Except.error (PyExc.otherError m)) d r = Except.ok d := by
  intro d m v r
  exact ⟨rfl, rfl, rfl, rfl, rfl, rfl, rfl⟩

/-- Claim C7 counterexample: with `max_length = 0` (set, but falsy in
Python) and a stripped string longer than `0`, the code returns the
string while the claim as stated demands a `ValueError`. -/
theorem C7_counterexample :
    validate_string_field (PyVal.str ("abc")) ("nickname") (Option.some 0) true =
      Except.ok (PyVal.str ("abc")) ∧
    validateStringClaim (PyVal.str ("abc")) ("nickname") (Option.some 0) true =
      Except.error (PyExc.valueError (("nickname") ++ (" cannot exceed ") ++ toString (0 : Int) ++ (" characters"))) := by
  exact ⟨rfl, rfl⟩

/-- Claim C7 amended: `validate_string_field` behaves per the claim with
the max-length clause read as "when `max_length` is set *and nonzero*":
empty input raises iff required (else `None`), blank-stripping input
raises when required, over-long input raises when the bound is set and
nonzero, and otherwise the stripped string is returned. -/
theorem C7_validate_string_field :
    ∀ (value : PyVal) (field_name : String) (max_length : Option Int) (required : Bool),
      validate_string_field value field_name max_length required =
        validateStringAmended value field_name max_length required := by
  intro v fn ml req
  rfl

/-- Claim C9 counterexample: for the Python input `0` (not `None`), the
claim's reading stringifies it to `"0"` and returns `"0"`, but the code
computes `str(0 or '') = ''` and returns the empty string. -/
theorem C9_counterexample :
    format_phone_for_display (PyVal.int 0) = "" ∧
    formatPhoneClaim (PyVal.int 0) = ("0") := by
  exact ⟨rfl, rfl⟩

/-- Claim C9 amended: the digit string is taken from the stringified
input *with every falsy input (not only None) stringified to the empty
string*; 10 digits format as `(AAA) BBB-CCCC`, 7 as `AAA-BBBB`, and any
other count is returned bare. -/
theorem C9_format_phone :
    ∀ (v : PyVal), format_phone_for_display v = formatPhoneSpec v := by
  intro v
  unfold format_phone_for_display formatPhoneSpec pyOr
  by_cases h : pyTruthy v = true
  · simp [h]
  · simp [Bool.not_eq_true] at h
    simp [h, pyStr]

/-- Claim C8: when the error list is nonempty, `BaseForm.save` returns
the `{ok: False, errors}` dict with an empty effect trace: no DAO is
constructed and no DAO method is invoked. -/
theorem C8_save_no_dao_on_errors :
    ∀ (f : FormState) (meta : MetaCfg) (dao : Dao),
      f.errors ≠ [] → save f meta dao = ([], SaveRes.ret (failDict f.errors)) := by
  intro f meta dao h
  unfold save
  have he : f.errors.isEmpty = false := by
    cases hf : f.errors with
    | nil => exact absurd hf h
    | cons a l => rfl
  simp [he]

/-- Witness for C8 at a concrete erroring form. -/
theorem C8_save_no_dao_on_errors_witness :
    save fErrW teacherMeta daoW = ([], SaveRes.ret (failDict fErrW.errors)) :=
  C8_save_no_dao_on_errors fErrW teacherMeta daoW (by decide)

/-- Claim C10: `is_valid` clears previous errors and cleaned data before
running `clean()`, so a second call on the unchanged form returns the
same boolean and leaves the identical form state. -/
theorem C10_is_valid_idempotent :
    ∀ (clean : CleanFn) (f : FormState),
      is_valid clean (is_valid clean f).2 = is_valid clean f := by
  intro clean f
  obtain ⟨d, i, p, cd, es, b⟩ := f
  cases b <;> simp [is_valid]

/-- Rows kept by a negated filter all satisfy the negation. -/
theorem all_filter_not {α : Type} (l : List α) (p : α → Bool) :
    (l.filter (fun a => !(p a))).all (fun a => !(p a)) = true := by
  induction l with
  | nil => rfl
  | cons x t ih => by_cases h : p x <;> simp [List.filter_cons, h, ih]

/-- Claim C4: `delete_training_session` removes every attendee of the
session before removing the session row (the attendee filter applies to
the incoming attendee table, unconditionally), so afterwards no attendee
references the session; the result is `{"ok": True, "deleted": n}` when
`n > 0` sessions were deleted and `{"ok": False, "deleted": 0}`
otherwise. -/
theorem C4_delete_training_session :
    ∀ (sid : Int) (db : AppDb),
      ((delete_training_session sid db).1.attendees.all (fun a => !(a.session == sid))) = true ∧
      (delete_training_session sid db).1.attendees = db.attendees.filter (fun a => !(a.session == sid)) ∧
      (delete_training_session sid db).1.sessions = db.sessions.filter (fun s => !(s.session_id == sid)) ∧
      (delete_training_session sid db).2 =
        (if 0 < (db.sessions.filter (fun s => s.session_id == sid)).length then
          PyVal.dict [(("ok"), PyVal.bool true),
                      (("deleted"), PyVal.int ((db.sessions.filter (fun s => s.session_id == sid)).length : Int))]
        else
          PyVal.dict [(("ok"), PyVal.bool false), (("deleted"), PyVal.int 0)]) := by
  intro sid db
  refine ⟨all_filter_not _ _, rfl, rfl, ?_⟩
  unfold delete_training_session delete_where
  cases h : (db.sessions.filter (fun s => s.session_id == sid)).length with
  | zero => simp [h]
  | succ k =>
      simp [h]
      omega

/-- The statements issued by `CustomerDAO._is_active` are SELECTs. -/
theorem refIsActive_stmts_select (tbl : List RefRow) (pk : Option Int) (t : String) :
    ((refIsActive tbl pk t).2).all SqlStmt.isSelect = true := by
  cases pk with
  | none => rfl
  | some p =>
      cases h : (tbl.filter (fun r => r.id == p)).head? with
      | none => simp [refIsActive, h, SqlStmt.isSelect]
      | some row => simp [refIsActive, h, SqlStmt.isSelect]

/-- Claim C6: every public `CustomerDAO` operation is read-only — it
returns the accounting database unchanged and issues only SELECT
statements. -/
theorem C6_customer_dao_read_only :
    ∀ (db : AcctDb) (term : String) (limit : Nat) (inc : Bool) (oid tid : Int)
      (anum : String) (lt : Option String),
      readOnly (search_customers db term limit inc) db ∧
      readOnly (customer_get_by_id db oid) db ∧
      readOnly (get_by_account_number db anum) db ∧
      readOnly (get_active_count db) db ∧
      readOnly (customer_is_active db oid) db ∧
      readOnly (get_preference_ids db oid) db ∧
      readOnly (get_tax_item_ids db oid lt) db ∧
      readOnly (is_tax_exempt db oid tid) db ∧
      readOnly (get_bill_address db oid) db ∧
      readOnly (get_ship_addresses db oid) db := by
  intro db term limit inc oid tid anum lt
  refine ⟨⟨rfl, rfl⟩, ?_, ?_, ⟨rfl, rfl⟩, ?_, ?_, ⟨rfl, rfl⟩, ?_, ?_, ⟨rfl, rfl⟩⟩
  · unfold customer_get_by_id
    cases (db.org.filter (fun o => (o.org_id == oid) && (o.orgdiscriminator == ("CUST")))).head? <;>
      exact ⟨rfl, rfl⟩
  · unfold get_by_account_number
    cases (db.org.filter (fun o =>
        (o.acctnumber == Option.some anum) && (o.orgdiscriminator == ("CUST")))).head? <;>
      exact ⟨rfl, rfl⟩
  · unfold customer_is_active
    cases (db.org.filter (fun o => (o.org_id == oid) && (o.orgdiscriminator == ("CUST")))).head? <;>
      exact ⟨rfl, rfl⟩
  · unfold get_preference_ids
    cases (db.org.filter (fun o => o.org_id == oid)).head? with
    | none => exact ⟨rfl, rfl⟩
    | some o =>
        refine ⟨rfl, ?_⟩
        simp only [List.all_append]
        simp [refIsActive_stmts_select, SqlStmt.isSelect]
  · unfold is_tax_exempt
    cases (db.org_item_link.filter (fun l => (l.orgid == oid) && (l.itemid == tid))).head? <;>
      exact ⟨rfl, rfl⟩
  · unfold get_bill_address
    cases (db.org_address.filter (fun a =>
        (a.orgid == Option.some oid) && (a.addresstype == ("BILLTO")))).head? <;>
      exact ⟨rfl, rfl⟩

/-- Claim C1 counterexample: on data carrying the present primary-key
value `0`, validation succeeds, the primary-key value read per the claim
is present (`0`, not `None`), yet `save` invokes `create_fn`
(`"create"`), not `update_fn`, because the dispatch tests Python
truthiness rather than presence. -/
theorem C1_counterexample :
    dictGet dC1 (("teacher_id")) = Option.some (PyVal.int 0) ∧
    pkValue fC1 (teacherMeta.pk_field) = PyVal.int 0 ∧
    fC1.errors = [] ∧
    (save fC1 teacherMeta daoW).1 =
      [Effect.daoConstructed, Effect.daoCall (("create")) fC1.cleaned_data] := by
  exact ⟨rfl, rfl, rfl, rfl⟩

/-- Claim C1 amended: on a validated form, `BaseForm.save` invokes the
DAO method named `Meta.update_fn` when the primary-key value (read from
the instance's `Meta.pk_field` attribute, or failing that from the data)
is *truthy*, and `Meta.create_fn` otherwise, passing `cleaned_data` as
keyword arguments. -/
theorem C1_save_dispatch :
    ∀ (f : FormState) (meta : MetaCfg) (dao : Dao) (g : Dict → PyVal),
      f.errors = [] →
      dao (if pyTruthy (pkValue f meta.pk_field) then meta.update_fn else meta.create_fn) = Option.some g →
      save f meta dao =
        ([Effect.daoConstructed,
          Effect.daoCall (if pyTruthy (pkValue f meta.pk_field) then meta.update_fn else meta.create_fn)
            f.cleaned_data],
         SaveRes.ret (okDict (g f.cleaned_data))) := by
  intro f meta dao g he hd
  unfold save
  simp [he, hd]

/-- Witness for the amended C1 dispatch at a concrete form and DAO. -/
theorem C1_save_dispatch_witness :
    save fW teacherMeta daoW =
      ([Effect.daoConstructed,
        Effect.daoCall (if pyTruthy (pkValue fW teacherMeta.pk_field) then teacherMeta.update_fn else teacherMeta.create_fn)
          fW.cleaned_data],
       SaveRes.ret (okDict (gW fW.cleaned_data))) :=
  C1_save_dispatch fW teacherMeta daoW gW rfl rfl

/-- When a save service's form validates with errors, the service
returns the failure dict; when it validates cleanly, any returned value
is the success dict: every returned value has one of the two contract
shapes. -/
theorem saveService_ret_shape (clean : CleanFn) (meta : MetaCfg) (dao : Dao) (data : Dict) (v : PyVal)
    (h : (saveService clean meta dao data).2 = SaveRes.ret v) :
    (isFailShape v || isOkShape v) = true := by
  unfold saveService at h
  set f0 := formInit (Option.some data) Option.none false with hf0
  cases hr : (is_valid clean f0).1 with
  | false =>
      rw [hr] at h
      simp at h
      have hne : (is_valid clean f0).2.errors ≠ [] := by
        unfold is_valid at hr ⊢
        simp [hf0, formInit] at hr ⊢
        cases hcl : (clean data Option.none false).1 with
        | nil => rw [hcl] at hr; simp at hr
        | cons a l => simp [hcl]
      cases hes : (is_valid clean f0).2.errors with
      | nil => exact absurd hes hne
      | cons e es =>
          rw [hes] at h
          subst h
          simp [failDict, errorsToPy, isFailShape, isOkShape]
          exact ⟨rfl, fun a _ => rfl⟩
  | true =>
      rw [hr] at h
      simp at h
      unfold save at h
      have hee : (is_valid clean f0).2.errors.isEmpty = true := by
        unfold is_valid at hr ⊢
        simp [hf0, formInit] at hr ⊢
        exact hr
      rw [hee] at h
      simp at h
      cases hm : dao (if pyTruthy (pkValue (is_valid clean f0).2 meta.pk_field) then meta.update_fn else meta.create_fn) with
      | none => rw [hm] at h; simp at h
      | some m =>
          rw [hm] at h
          simp at h
          subst h
          rfl

/-- When the form validates cleanly, any value the service returns has
the success shape. -/
theorem saveService_ok_ret (clean : CleanFn) (meta : MetaCfg) (dao : Dao) (data : Dict) (v : PyVal)
    (hv : (is_valid clean (formInit (Option.some data) Option.none false)).1 = true)
    (h : (saveService clean meta dao data).2 = SaveRes.ret v) :
    isOkShape v = true := by
  unfold saveService at h
  set f0 := formInit (Option.some data) Option.none false with hf0
  rw [hv] at h
  simp at h
  unfold save at h
  have hee : (is_valid clean f0).2.errors.isEmpty = true := by
    unfold is_valid at hv ⊢
    simp [hf0, formInit] at hv ⊢
    exact hv
  rw [hee] at h
  simp at h
  cases hm : dao (if pyTruthy (pkValue (is_valid clean f0).2 meta.pk_field) then meta.update_fn else meta.create_fn) with
  | none => rw [hm] at h; simp at h
  | some m =>
      rw [hm] at h
      simp at h
      subst h
      rfl

/-- Claim C2: `save_teacher` and `save_training_session` return exactly
one of the two contract shapes — `{"ok": False, "errors": es}` with `es`
a nonempty list of field/message records when validation fails, and
`{"ok": True, "result": r}` when it succeeds; no other returned shape is
possible. -/
theorem C2_service_result_shapes :
    ∀ (dao : Dao) (data : Dict) (v : PyVal),
      ((save_teacher dao data).2 = SaveRes.ret v → (isFailShape v || isOkShape v) = true) ∧
      ((is_valid teacherClean (formInit (Option.some data) Option.none false)).1 = false →
        (save_teacher dao data).2 =
          SaveRes.ret (failDict (is_valid teacherClean (formInit (Option.some data) Option.none false)).2.errors)) ∧
      ((is_valid teacherClean (formInit (Option.some data) Option.none false)).1 = true →
        (save_teacher dao data).2 = SaveRes.ret v → isOkShape v = true) ∧
      ((save_training_session dao data).2 = SaveRes.ret v → (isFailShape v || isOkShape v) = true) ∧
      ((is_valid trainingSessionClean (formInit (Option.some data) Option.none false)).1 = false →
        (save_training_session dao data).2 =
          SaveRes.ret (failDict (is_valid trainingSessionClean (formInit (Option.some data) Option.none false)).2.errors)) ∧
      ((is_valid trainingSessionClean (formInit (Option.some data) Option.none false)).1 = true →
        (save_training_session dao data).2 = SaveRes.ret v → isOkShape v = true) := by
  intro dao data v
  refine ⟨fun h => saveService_ret_shape _ _ _ _ _ h, ?_,
          fun hv h => saveService_ok_ret _ _ _ _ _ hv h,
          fun h => saveService_ret_shape _ _ _ _ _ h, ?_,
          fun hv h => saveService_ok_ret _ _ _ _ _ hv h⟩
  · intro hv
    unfold save_teacher saveService
    simp [hv]
  · intro hv
    unfold save_training_session saveService
    simp [hv]

/-- Witness for C2: on the empty data dict validation fails and the
returned value has the failure shape; on valid teacher data against the
all-methods DAO validation succeeds and the returned value has the
success shape. -/
theorem C2_service_result_shapes_witness :
    (isFailShape vC2 || isOkShape vC2) = true ∧ isOkShape vC2ok = true :=
  ⟨(C2_service_result_shapes daoW [] vC2).1 rfl,
   ((C2_service_result_shapes daoW dC5 vC2ok).2.2.1 (by decide)) rfl⟩

/-- `isEmpty` distributes over list append. -/
theorem isEmpty_append {α : Type} (l1 l2 : List α) :
    (l1 ++ l2).isEmpty = (l1.isEmpty && l2.isEmpty) := by
  cases l1 <;> simp

/-- Association-list lookup over append. -/
theorem dictGet_append (l1 l2 : Dict) (k : String) :
    dictGet (l1 ++ l2) k = (dictGet l1 k).or (dictGet l2 k) := by
  induction l1 with
  | nil => simp [dictGet]
  | cons p t ih =>
      obtain ⟨k2, v⟩ := p
      by_cases h : k2 = k <;> simp [dictGet, h, ih]

/-- `require` (non-partial) returns the looked-up value. -/
theorem requireField_fst (data : Dict) (k : String) :
    (requireField data false k).1 = pyDictGet data k := by
  unfold requireField
  by_cases h : isNoneOrBlankStr (pyDictGet data k) <;> simp [h]

/-- `require` (non-partial) adds no error exactly when the value is
present and not blank. -/
theorem requireField_snd_empty (data : Dict) (k : String) :
    ((requireField data false k).2).isEmpty = !(isNoneOrBlankStr (pyDictGet data k)) := by
  unfold requireField
  by_cases h : isNoneOrBlankStr (pyDictGet data k) <;> simp [h]

/-- The name block (non-partial) errors exactly on normalisations longer
than 45 characters. -/
theorem nameBlock_fst_empty (k : String) (v : PyVal) (lbl : String) :
    ((nameBlock k v false lbl).1).isEmpty =
      decide ((pyStrip (pyStr (pyOr v (PyVal.str (""))))).length ≤ 45) := by
  unfold nameBlock
  by_cases h : (pyStrip (pyStr (pyOr v (PyVal.str (""))))).length > 45
  · simp [h, Nat.not_le.mpr h]
  · have h2 := Nat.not_lt.mp h
    simp [h, h2]

/-- The name block (non-partial) stores the normalised value when it is
within the length bound. -/
theorem nameBlock_snd (k : String) (v : PyVal) (lbl : String)
    (h : (pyStrip (pyStr (pyOr v (PyVal.str (""))))).length ≤ 45) :
    (nameBlock k v false lbl).2 =
      [(k, PyVal.str (pyStrip (pyStr (pyOr v (PyVal.str (""))))))] := by
  unfold nameBlock
  simp [Nat.not_lt.mpr h]

/-- The teacher-id block errors exactly on present, non-blank values
that do not parse as integers. -/
theorem teacherIdBlock_fst_empty (v : PyVal) :
    ((teacherIdBlock v).1).isEmpty =
      (isNone v || (pyStrip (pyStr v) == "") || (pyInt v).isSome) := by
  unfold teacherIdBlock
  by_cases h1 : isNone v
  · simp [h1]
  · by_cases h2 : pyStrip (pyStr v) = ""
    · simp [h1, h2]
    · cases h3 : pyInt v <;> simp [h1, h2, h3]

/-- Lookups under keys other than `teacher_id` pass through the
teacher-id block's cleaned entries. -/
theorem teacherIdBlock_snd_skip (v : PyVal) (k : String) (h : ¬(("teacher_id") = k)) (rest : Dict) :
    dictGet ((teacherIdBlock v).2 ++ rest) k = dictGet rest k := by
  unfold teacherIdBlock
  by_cases h1 : isNone v
  · simp [h1]
  · by_cases h2 : pyStrip (pyStr v) = ""
    · simp [h1, h2, dictGet, h]
    · cases h3 : pyInt v <;> simp [h1, h2, h3, dictGet, h]

/-- The email block errors exactly on present, non-blank values without
an `@`. -/
theorem emailBlock_fst_empty (v : PyVal) :
    ((emailBlock v).1).isEmpty =
      (isNone v || (pyStrip (pyStr v) == "") || (pyInStr '@' (pyStrip (pyStr v)))) := by
  unfold emailBlock
  by_cases h1 : isNone v
  · simp [h1]
  · by_cases h2 : pyStrip (pyStr v) = ""
    · simp [h1, h2]
    · by_cases h3 : pyInStr '@' (pyStrip (pyStr v)) <;> simp [h1, h2, h3]

/-- The email block's cleaned entry: `None` for absent/blank values, the
stripped string for values containing `@`, nothing otherwise. -/
theorem emailBlock_snd (v : PyVal) :
    (emailBlock v).2 =
      (if isNone v || (pyStrip (pyStr v) == "") then [(("email"), PyVal.none)]
       else if pyInStr '@' (pyStrip (pyStr v)) then [(("email"), PyVal.str (pyStrip (pyStr v)))]
       else []) := by
  unfold emailBlock
  by_cases h1 : isNone v
  · simp [h1]
  · by_cases h2 : pyStrip (pyStr v) = ""
    · simp [h1, h2]
    · by_cases h3 : pyInStr '@' (pyStrip (pyStr v)) <;> simp [h1, h2, h3]

/-- Claim C5: on a non-partial data dict, `TeacherForm.is_valid()`
succeeds iff first/last name are present, non-blank and normalise to at
most 45 characters, `teacher_id` is absent/blank or parses as an
integer, and `email` is absent, blank or contains `@`; on success,
`cleaned_data` holds the stripped names, and `email` is `None` when
blank/absent and the stripped email string otherwise. -/
theorem C5_teacher_form_validation :
    ∀ (data : Dict),
      (is_valid teacherClean (formInit (Option.some data) Option.none false)).1 = teacherValidSpec data ∧
      (teacherValidSpec data = true →
        dictGet (is_valid teacherClean (formInit (Option.some data) Option.none false)).2.cleaned_data ("first_name") =
          Option.some (PyVal.str (pyStrip (pyStr (pyOr (pyDictGet data ("first_name")) (PyVal.str ("")))))) ∧
        dictGet (is_valid teacherClean (formInit (Option.some data) Option.none false)).2.cleaned_data ("last_name") =
          Option.some (PyVal.str (pyStrip (pyStr (pyOr (pyDictGet data ("last_name")) (PyVal.str ("")))))) ∧
        (emailBlank data = true →
          dictGet (is_valid teacherClean (formInit (Option.some data) Option.none false)).2.cleaned_data ("email") =
            Option.some PyVal.none) ∧
        (emailBlank data = false →
          dictGet (is_valid teacherClean (formInit (Option.some data) Option.none false)).2.cleaned_data ("email") =
            Option.some (PyVal.str (pyStrip (pyStr (pyDictGet data ("email"))))))) := by
  intro data
  have hb : (is_valid teacherClean (formInit (Option.some data) Option.none false)).1 =
      ((teacherClean data Option.none false).1).isEmpty := rfl
  have hc : (is_valid teacherClean (formInit (Option.some data) Option.none false)).2.cleaned_data =
      (teacherClean data Option.none false).2 := rfl
  have herr : (teacherClean data Option.none false).1 =
      (requireField data false ("first_name")).2 ++ (requireField data false ("last_name")).2 ++
        (teacherIdBlock (pyDictGet data ("teacher_id"))).1 ++
        (nameBlock ("first_name") (requireField data false ("first_name")).1 false ("First name")).1 ++
        (nameBlock ("last_name") (requireField data false ("last_name")).1 false ("Last name")).1 ++
        (emailBlock (pyDictGet data ("email"))).1 := rfl
  have hcd : (teacherClean data Option.none false).2 =
      (teacherIdBlock (pyDictGet data ("teacher_id"))).2 ++
        (nameBlock ("first_name") (requireField data false ("first_name")).1 false ("First name")).2 ++
        (nameBlock ("last_name") (requireField data false ("last_name")).1 false ("Last name")).2 ++
        (emailBlock (pyDictGet data ("email"))).2 := rfl
  constructor
  · rw [hb, herr]
    simp only [isEmpty_append]
    rw [requireField_snd_empty, requireField_snd_empty, requireField_fst, requireField_fst,
        teacherIdBlock_fst_empty, nameBlock_fst_empty, nameBlock_fst_empty, emailBlock_fst_empty]
    unfold teacherValidSpec requiredNameOk teacherIdOk emailOk
    rw [Bool.eq_iff_iff]
    simp only [Bool.and_eq_true]
    constructor
    · intro h
      tauto
    · intro h
      tauto
  · intro hval
    have hv := hval
    unfold teacherValidSpec at hv
    simp only [Bool.and_eq_true] at hv
    obtain ⟨⟨⟨hfn, hln⟩, _htid⟩, hem⟩ := hv
    unfold requiredNameOk at hfn hln
    simp only [Bool.and_eq_true, decide_eq_true_eq] at hfn hln
    rw [hc, hcd, requireField_fst, requireField_fst,
        nameBlock_snd _ _ _ hfn.2, nameBlock_snd _ _ _ hln.2,
        List.append_assoc, List.append_assoc]
    have hne1 : ¬((("teacher_id") : String) = ("first_name")) := by decide
    have hne2 : ¬((("teacher_id") : String) = ("last_name")) := by decide
    have hne3 : ¬((("teacher_id") : String) = ("email")) := by decide
    have hne4 : ¬((("first_name") : String) = ("last_name")) := by decide
    have hne5 : ¬((("first_name") : String) = ("email")) := by decide
    have hne6 : ¬((("last_name") : String) = ("email")) := by decide
    refine ⟨?_, ?_, ?_, ?_⟩
    · rw [teacherIdBlock_snd_skip _ _ hne1]
      simp [dictGet]
    · rw [teacherIdBlock_snd_skip _ _ hne2]
      simp [dictGet, hne4]
    · intro hblank
      rw [teacherIdBlock_snd_skip _ _ hne3]
      unfold emailBlank at hblank
      rw [emailBlock_snd]
      simp only [hblank, if_true]
      simp [dictGet, hne5, hne6]
    · intro hblank
      rw [teacherIdBlock_snd_skip _ _ hne3]
      unfold emailBlank at hblank
      have hcontains : pyInStr '@' (pyStrip (pyStr (pyDictGet data ("email")))) = true := by
        unfold emailOk at hem
        simp only [Bool.or_eq_true] at hem
        simp only [Bool.or_eq_true, Bool.or_eq_false_iff] at hblank
        rcases hem with (h | h) | h
        · rw [h] at hblank
          simp at hblank
        · rw [h] at hblank
          simp at hblank
        · exact h
      rw [emailBlock_snd]
      rw [hblank]
      simp only [if_false, Bool.false_eq_true, hcontains, if_true]
      simp [dictGet, hne5, hne6]

/-- Witness for C5 at concrete valid teacher data: validation succeeds
and `cleaned_data` holds the stripped first name and email. -/
theorem C5_teacher_form_validation_witness :
    teacherValidSpec dC5 = true ∧
    dictGet (is_valid teacherClean (formInit (Option.some dC5) Option.none false)).2.cleaned_data ("first_name") =
      Option.some (PyVal.str (pyStrip (pyStr (pyOr (pyDictGet dC5 ("first_name")) (PyVal.str ("")))))) ∧
    dictGet (is_valid teacherClean (formInit (Option.some dC5) Option.none false)).2.cleaned_data ("email") =
      Option.some (PyVal.str (pyStrip (pyStr (pyDictGet dC5 ("email"))))) :=
  ⟨by decide, ((C5_teacher_form_validation dC5).2 (by decide)).1,
    (((C5_teacher_form_validation dC5).2 (by decide)).2.2.2) (by decide)⟩
